import Mathlib

/-!
Shallow embedding of the terminal session manager
(`src/server/services/terminal_manager.py`) and of the transport boundary
(`src/server/routers/terminal.py`).

Python state becomes explicit record-passing; OS effects (fork, kill,
os.write) become parameters or explicit outcome values; Python exceptions
become `Except` results so that "does not raise" is a provable statement.
We model the Unix backend (the platform this core targets by default);
bytes are `List Nat`.
-/

namespace TerminalManager

/-- Raw bytes, as in the Python `bytes` values flowing through the PTY. -/
abbrev Bytes := List Nat

/-- A Python exception escaping a call (we only track that one escaped). -/
abbrev PyExc := Unit

/-! ## TerminalSession state (Unix backend fields)

Mirrors the mutable attributes set in `TerminalSession.__init__`:
`_master_fd`, `_child_pid`, `_is_active`, `_output_task`.  The extra field
`child_alive` records the OS-level fact "the forked child process is still
running (has not exited)".  Note that this fact is not what
`os.kill(pid, 0)` observes: a self-exited child remains an unreaped zombie
— an existing process for which `kill(pid, 0)` still succeeds — until some
`waitpid` reaps it, and the only `waitpid` calls in the source are in the
read loop's own `finally` (after the loop ends) and in `_stop_unix`.  See
`check_child_alive` below. -/
structure SessionState where
  is_active : Bool
  master_fd : Option Nat
  child_pid : Option Nat
  output_task : Bool
  child_alive : Bool
  deriving Repr, DecidableEq

/-- A freshly constructed session: `_pty_process/_master_fd/_child_pid = None`,
`_is_active = False`, `_output_task = None`. -/
def SessionState.inert : SessionState :=
  { is_active := false, master_fd := none, child_pid := none
    output_task := false, child_alive := false }

/-- The environment `TerminalSession.start` consults: whether
`self.project_dir.exists()` and `.is_dir()` hold, and the outcome of
`pty.fork()` (`none` models the OS refusing to fork; `some (pid, fd)` the
parent-side return values). -/
structure StartEnv where
  dir_exists : Bool
  dir_is_dir : Bool
  fork_result : Option (Nat × Nat)
  deriving Repr, DecidableEq

/-- Model of `TerminalSession.start` (Unix path, lines 174–276 of
terminal_manager.py): guard on `_is_active`, validate the project
directory, then `_start_unix`.  On fork failure the `except` branch of
`_start_unix` resets `_master_fd`/`_child_pid` to `None` and returns
`False`; on success it records the fd and pid, sets `_is_active = True`
and launches the read task.  Every failure path returns `false` rather
than raising (the `try/except` in `start` converts any backend exception
into `False`). -/
def start (s : SessionState) (env : StartEnv) : SessionState × Bool :=
  if s.is_active then (s, false)
  else if !env.dir_exists then (s, false)
  else if !env.dir_is_dir then (s, false)
  else
    match env.fork_result with
    | none => ({ s with master_fd := none, child_pid := none }, false)
    | some (pid, fd) =>
        ({ s with master_fd := some fd, child_pid := some pid,
                  is_active := true, output_task := true, child_alive := true },
         true)

/-- The OS-level event "the child process exits on its own" (e.g. the user
typed `exit`): the child stops running and becomes an unreaped zombie.
Only the running-flag changes; no session field does, and the process
continues to exist (as a zombie) until reaped. -/
def child_exits (s : SessionState) : SessionState :=
  { s with child_alive := false }

/-- Model of `TerminalSession._check_child_alive` (lines 380–390):
`os.kill(self._child_pid, 0)` with `OSError` meaning dead.  Per kill(2),
signal 0 succeeds for any *existing* process, and a self-exited child is
still an existing (zombie) process because nothing reaps it while the
read loop runs.  So the check returns false only when no child was ever
forked (`_child_pid is None`) or after `_stop_unix` reaped and cleared it
— it does not detect a self-exit, whether or not `child_alive` holds. -/
def check_child_alive (s : SessionState) : Bool :=
  match s.child_pid with
  | none => false
  | some _ => true

/-- One timed-out iteration of `_read_output_unix` once the child has
exited: `select`/`os.read` yield no data (an EIO from the dead slave side
is swallowed and returned as empty, lines 348–349), so the loop reaches
`elif not self._check_child_alive(): break`.  The returned flag says
whether the loop keeps running; only on break does the `finally` block set
`_is_active = False` (leaving `_master_fd`, `_child_pid`, `_output_task`
untouched and attempting a non-blocking `waitpid`). -/
def read_loop_idle_step (s : SessionState) : SessionState × Bool :=
  if check_child_alive s then (s, true)
  else ({ s with is_active := false }, false)

/-- Model of `TerminalSession._stop_unix`: closes the master fd (clearing the
field), sends SIGTERM then SIGKILL to the child if present and reaps it —
a `ProcessLookupError` from an already-dead child is swallowed — and the
`finally` clears `_child_pid` unconditionally.  So both handle fields end
up `None` whether or not the child was still alive. -/
def stop_unix (s : SessionState) : SessionState :=
  { s with master_fd := none, child_pid := none, child_alive := false }

/-- Model of `TerminalSession.stop`: early return if not `_is_active`; otherwise
set `_is_active = False`, cancel and clear `_output_task`, then
`_stop_unix`. -/
def stop (s : SessionState) : SessionState :=
  if !s.is_active then s
  else stop_unix { s with is_active := false, output_task := false }

/-! ## write -/

/-- Outcome of one `write` call, distinguishing the source's branches:
the inactive early-return (logged warning), a completed `os.write`, the
`_master_fd is None` silent fall-through, and a caught I/O error. -/
inductive WriteResult where
  | skipped_inactive
  | wrote
  | no_handle
  | failed
  deriving Repr, DecidableEq

/-- Model of `os.write(self._master_fd, data)` — may raise; `io_ok` says whether
the underlying syscall succeeds on this call. -/
def os_write (io_ok : Bool) : Except PyExc Unit :=
  if io_ok then .ok () else .error ()

/-- Model of `TerminalSession.write` (lines 392–413): no-op warning when
`_is_active` is false; otherwise the `os.write` sits inside
`try/except Exception`, which logs and returns.  The `Except` result in
the type records whether an exception escapes to the caller. -/
def write (s : SessionState) (_data : Bytes) (io_ok : Bool) :
    Except PyExc (SessionState × WriteResult) :=
  if !s.is_active then .ok (s, .skipped_inactive)
  else
    match s.master_fd with
    | none => .ok (s, .no_handle)
    | some _ =>
        match os_write io_ok with
        | .ok _ => .ok (s, .wrote)
        | .error _ => .ok (s, .failed)

/-! ## Broadcast (`TerminalSession._broadcast_output`)

The source snapshots the callback set under the lock, then runs
`for callback in callbacks: try: callback(data) except Exception: log`.
A callback is an opaque function owned by its registrant; we model it by
an identity and by whether this invocation raises.  Invoking a callback
produces an observable delivery record `(id, data)` together with its
`Except` result. -/

structure Callback where
  id : Nat
  raises : Bool
  deriving Repr, DecidableEq

/-- Calling `callback(data)`: the delivery happens, and the call either
returns or raises according to `cb.raises`. -/
def invoke (cb : Callback) (data : Bytes) : Except PyExc Unit × (Nat × Bytes) :=
  ((if cb.raises then .error () else .ok ()), (cb.id, data))

/-- The `for` loop of `_broadcast_output` over the snapshot: each
iteration's `try/except Exception` turns a raising callback into a logged
warning and the loop continues.  The result is the list of deliveries, in
iteration order; the `Except` in the type records whether an exception
escapes the loop into the read loop. -/
def broadcast_output : List Callback → Bytes → Except PyExc (List (Nat × Bytes))
  | [], _ => .ok []
  | cb :: rest, data =>
    match invoke cb data with
    | (.ok _, rec) =>
        match broadcast_output rest data with
        | .ok recs => .ok (rec :: recs)
        | .error e => .error e
    | (.error _, rec) =>
        match broadcast_output rest data with
        | .ok recs => .ok (rec :: recs)
        | .error e => .error e

/-! ## Observer disconnect (`terminal_websocket` finally block)

The `finally` block of the websocket handler runs, per observer:
  1. `session.remove_output_callback(on_output)` — one acquisition of
     `_callbacks_lock`, discarding that observer's callback;
  2. `with session._callbacks_lock: remaining = len(session._output_callbacks)`
     — a second, separate acquisition reading the size;
and invokes `await session.stop()` iff `remaining == 0`.

We model two observers A and B concurrently running this sequence, at the
atomicity granularity the lock provides: each lock-protected section is
one atomic event, and events of the two observers interleave arbitrarily
while preserving each observer's program order. -/

/-- One lock-protected step of observer `i`: removing its own callback, or
reading the remaining count. -/
inductive DiscEv where
  | rem (i : Fin 2)
  | chk (i : Fin 2)
  deriving Repr, DecidableEq

/-- Which observers' callbacks are still in `_output_callbacks`
(the two observers' callbacks are distinct objects). -/
structure CbSet where
  a_present : Bool
  b_present : Bool
  deriving Repr, DecidableEq

def CbSet.card (s : CbSet) : Nat :=
  (if s.a_present then 1 else 0) + (if s.b_present then 1 else 0)

/-- Execute one event; `chk i` emits the count observer `i` reads under
the lock. -/
def discStep (s : CbSet) : DiscEv → CbSet × Option (Fin 2 × Nat)
  | .rem ⟨0, _⟩ => ({ s with a_present := false }, none)
  | .rem ⟨1, _⟩ => ({ s with b_present := false }, none)
  | .chk i => (s, some (i, s.card))

/-- Run a whole interleaving, collecting each observer's observed count. -/
def discRun (s : CbSet) : List DiscEv → CbSet × List (Fin 2 × Nat)
  | [] => (s, [])
  | e :: es =>
    let (s', obs) := discStep s e
    let (s'', rest) := discRun s' es
    (s'', (obs.toList) ++ rest)

/-- All interleavings of two event sequences (each observer's program
order is preserved), with a fuel argument making the recursion structural;
fuel at least the combined length is enough to never hit the fuel floor. -/
def interleavingsAux : Nat → List DiscEv → List DiscEv → List (List DiscEv)
  | _, [], ys => [ys]
  | _, x :: xs, [] => [x :: xs]
  | 0, xs, ys => [xs ++ ys]
  | n + 1, x :: xs, y :: ys =>
      (interleavingsAux n xs (y :: ys)).map (x :: ·) ++
      (interleavingsAux n (x :: xs) ys).map (y :: ·)

def interleavings (xs ys : List DiscEv) : List (List DiscEv) :=
  interleavingsAux (xs.length + ys.length) xs ys

/-- Observer `i`'s disconnect sequence: remove own callback, then read the
remaining count. -/
def observerSeq (i : Fin 2) : List DiscEv := [.rem i, .chk i]

/-- Observer `i` "observes the callback set become empty and invokes
stop()" in run `l` iff its count read returns 0. -/
def observesEmpty (l : List DiscEv) (i : Fin 2) : Bool :=
  ((discRun ⟨true, true⟩ l).2.filter (fun p => p.1 = i ∧ p.2 = 0)) ≠ []

/-! ## Registry metadata (`create_terminal` / `delete_terminal`)

The metadata registry maps a project to a `list[TerminalInfo]`; we embed
one project's list.  `create_terminal` draws a fresh id from
`str(uuid.uuid4())[:8]` and a timestamp from `datetime.now()` — both are
parameters here. -/

structure TerminalInfo where
  id : String
  name : String
  created_at : String
  deriving Repr, DecidableEq

/-- Python `str.startswith(pre)` on ASCII strings. -/
def pyStartsWith (s pre : String) : Bool :=
  pre.data.isPrefixOf s.data

/-- Python `str.replace(pat, repl)`: replace every non-overlapping
occurrence of `pat`, scanning left to right.  Structured on a fuel bound
(the input length suffices, as each step consumes at least one character
when `pat` is nonempty). -/
def pyReplaceAux (pat repl : List Char) : Nat → List Char → List Char
  | _, [] => []
  | 0, l => l
  | fuel + 1, c :: cs =>
    if pat ≠ [] && pat.isPrefixOf (c :: cs) then
      repl ++ pyReplaceAux pat repl fuel (List.drop pat.length (c :: cs))
    else
      c :: pyReplaceAux pat repl fuel cs

def pyReplace (s pat repl : String) : String :=
  ⟨pyReplaceAux pat.data repl.data s.data.length s.data⟩

/-- Value of a decimal digit string (most significant first), as `int()`
computes it. -/
def decimalVal (l : List Char) : Nat :=
  l.foldl (fun acc c => acc * 10 + (c.toNat - 48)) 0

/-- Python `int(s)` on a plain decimal string: strips surrounding
whitespace, accepts one optional sign, then requires a nonempty run of
digits; anything else raises `ValueError`, which the caller models as
`none`. -/
def pyInt? (s : String) : Option Int :=
  let t := ((s.data.dropWhile (·.isWhitespace)).reverse.dropWhile (·.isWhitespace)).reverse
  let (sign, digits) : Int × List Char :=
    match t with
    | [] => (1, [])
    | c :: rest =>
        if c = '-' then (-1, rest)
        else if c = '+' then (1, rest)
        else (1, c :: rest)
  if digits ≠ [] && digits.all Char.isDigit then
    some (sign * (decimalVal digits : Nat))
  else none

/-- The number a terminal name contributes to `existing_nums` in
`create_terminal`: names starting with `"Terminal "` have every
occurrence of `"Terminal "` removed and the remainder fed to `int()`,
with `ValueError` skipping the name. -/
def extract_num (name : String) : Option Int :=
  if pyStartsWith name "Terminal " then pyInt? (pyReplace name "Terminal " "")
  else none

def existing_nums (ts : List TerminalInfo) : List Int :=
  ts.filterMap (fun t => extract_num t.name)

/-- Python `max(xs, default=d)`. -/
def pyMaxD (d : Int) : List Int → Int
  | [] => d
  | x :: xs => xs.foldl max x

/-- Model of `next_num = max(existing_nums, default=0) + 1`. -/
def next_num (ts : List TerminalInfo) : Int :=
  pyMaxD 0 (existing_nums ts) + 1

/-- Model of `create_terminal` (lines 532–567): auto-generate
`f"Terminal {next_num}"` when no name is supplied, append the new record,
return it.  `fresh_id` stands for `str(uuid.uuid4())[:8]` and `now` for
the timestamp. -/
def create_terminal (ts : List TerminalInfo) (name : Option String)
    (fresh_id now : String) : List TerminalInfo × TerminalInfo :=
  let chosen :=
    match name with
    | some n => n
    | none => "Terminal " ++ toString (next_num ts)
  let info : TerminalInfo := ⟨fresh_id, chosen, now⟩
  (ts ++ [info], info)

/-- Model of `delete_terminal` metadata part (lines 610–641): pop the first record
whose id matches; `false` when none does. -/
def delete_terminal : List TerminalInfo → String → List TerminalInfo × Bool
  | [], _ => ([], false)
  | t :: ts, tid =>
    if t.id = tid then (ts, true)
    else
      let (ts', found) := delete_terminal ts tid
      (t :: ts', found)

/-! ## Shell resolver (`_get_shell`, POSIX branch) -/

/-- Model of `_get_shell` on a non-Windows platform (lines 80–89).
`env_shell` is `os.environ.get("SHELL")`; `which` says whether
`shutil.which` finds the given string (truthiness of its result); `path_exists`
is `os.path.exists`.  Python's `if shell and shutil.which(shell)` first
tests the string's truthiness, so an empty `SHELL` is skipped without
consulting `which`.  The fallback chain is the `for` loop over
`["/bin/bash", "/bin/sh"]` returning the first existing path, then the
unconditional `return "/bin/sh"`. -/
def shell_fallback (path_exists : String → Bool) : String :=
  if path_exists "/bin/bash" then "/bin/bash"
  else if path_exists "/bin/sh" then "/bin/sh"
  else "/bin/sh"

def get_shell_posix (env_shell : Option String) (which : String → Bool)
    (path_exists : String → Bool) : String :=
  match env_shell with
  | some shell =>
      if shell ≠ "" && which shell then shell
      else shell_fallback path_exists
  | none => shell_fallback path_exists

/-! ## Transport resize handling (`terminal_websocket`, resize branch) -/

/-- What the resize branch forwards to the session once both dimensions
are integers. -/
inductive ResizeAction where
  | start (cols rows : Int)
  | resize (cols rows : Int)
  deriving Repr, DecidableEq

def ResizeAction.cols : ResizeAction → Int
  | .start c _ => c
  | .resize c _ => c

def ResizeAction.rows : ResizeAction → Int
  | .start _ r => r
  | .resize _ r => r

/-- The `elif msg_type == "resize"` branch (router lines 376–407), after
the `isinstance(cols, int) and isinstance(rows, int)` check has passed:
`cols = max(10, min(500, cols))`, `rows = max(5, min(200, rows))`, then
either the deferred `session.start(cols, rows)` (first resize on an
inactive session) or `session.resize(cols, rows)`. -/
def handle_resize (needs_initial_resize is_active : Bool) (cols rows : Int) :
    ResizeAction :=
  let cols := max 10 (min 500 cols)
  let rows := max 5 (min 200 rows)
  if needs_initial_resize && !is_active then .start cols rows
  else .resize cols rows

/-! ## Terminal ids and the router's validation -/

/-- Lowercase hexadecimal digit, the alphabet of `str(uuid.UUID)`:
`0`–`9` or `a`–`f` (codepoints 97–102). -/
def isHexLower (c : Char) : Bool :=
  c.isDigit || (97 ≤ c.toNat && c.toNat ≤ 102)

/-- Model of `str(uuid.uuid4())`: the canonical 8-4-4-4-12 rendering of the 32
lowercase-hex-digit UUID, with hyphens between the groups.  The 32 digits
are the parameter. -/
def uuid4_string (h : List Char) : String :=
  ⟨h.take 8 ++ '-' :: ((h.drop 8).take 4 ++ '-' ::
   ((h.drop 12).take 4 ++ '-' :: ((h.drop 16).take 4 ++ '-' :: h.drop 20)))⟩

/-- Python slicing `s[:8]` on an ASCII string. -/
def pySlice8 (s : String) : String := ⟨s.data.take 8⟩

/-- The id allocated by `create_terminal`: `str(uuid.uuid4())[:8]`. -/
def new_terminal_id (h : List Char) : String :=
  pySlice8 (uuid4_string h)

/-- Model of `validate_terminal_id` (router lines 44–54): `re.match` of
`^[a-zA-Z0-9]{1,16}$`, i.e. one to sixteen ASCII alphanumerics and
nothing else. -/
def validate_terminal_id (tid : String) : Bool :=
  decide (1 ≤ tid.data.length) && decide (tid.data.length ≤ 16) &&
    tid.data.all (fun c => c.isAlpha || c.isDigit)

/-! ## Helper lemmas -/

theorem digit_not_ws (c : Char) (h : c.isDigit = true) : c.isWhitespace = false := by
  rcases hw : c.isWhitespace with _ | _
  · rfl
  · exfalso
    rw [Char.isWhitespace] at hw
    simp only [Bool.or_eq_true, decide_eq_true_eq] at hw
    rcases hw with ((rfl | rfl) | rfl) | rfl <;> revert h <;> decide

theorem digit_ne_of_not_digit {c d : Char} (h : c.isDigit = true)
    (hd : d.isDigit = false) : c ≠ d := by
  rintro rfl
  rw [h] at hd
  exact absurd hd (by simp)

theorem dropWhile_eq_self_of_all {p : Char → Bool} :
    ∀ l : List Char, (∀ c ∈ l, p c = false) → l.dropWhile p = l
  | [], _ => rfl
  | c :: cs, h => by
    have hc : p c = false := h c (by simp)
    simp [List.dropWhile_cons, hc]

theorem pyInt?_all_digits (d : String) (hne : d.data ≠ [])
    (hd : ∀ c ∈ d.data, c.isDigit = true) :
    pyInt? d = some ((decimalVal d.data : Nat) : Int) := by
  unfold pyInt?
  have hnw : ∀ c ∈ d.data, c.isWhitespace = false :=
    fun c hm => digit_not_ws c (hd c hm)
  have h1 : d.data.dropWhile (·.isWhitespace) = d.data :=
    dropWhile_eq_self_of_all d.data hnw
  have h2 : d.data.reverse.dropWhile (·.isWhitespace) = d.data.reverse :=
    dropWhile_eq_self_of_all _ (fun c hm => hnw c (List.mem_reverse.mp hm))
  rw [h1, h2, List.reverse_reverse]
  rcases hld : d.data with _ | ⟨c, cs⟩
  · exact absurd hld hne
  · have hc : c.isDigit = true := hd c (by simp [hld])
    have hms : ¬ (c = '-') := digit_ne_of_not_digit hc (by decide)
    have hpl : ¬ (c = '+') := digit_ne_of_not_digit hc (by decide)
    have hall : (c :: cs).all Char.isDigit = true :=
      List.all_eq_true.mpr (fun x hm => hd x (by simp [hld, hm]))
    simp [hms, hpl, hall, one_mul]

theorem pyReplaceAux_all_digits (fuel : Nat) :
    ∀ l : List Char, (∀ c ∈ l, c.isDigit = true) →
      pyReplaceAux "Terminal ".data "".data fuel l = l := by
  induction fuel with
  | zero => intro l _; cases l <;> rfl
  | succ n ih =>
    intro l hl
    cases l with
    | nil => rfl
    | cons c cs =>
      have hc : c.isDigit = true := hl c (by simp)
      have hnp : ¬ ("Terminal ".data <+: c :: cs) := by
        rw [show "Terminal ".data = 'T' :: "erminal ".data from rfl]
        intro hp
        exact digit_ne_of_not_digit hc (by decide)
          (List.cons_prefix_cons.mp hp).1.symm
      have hpf : List.isPrefixOf "Terminal ".data (c :: cs) = false := by
        rw [← Bool.not_eq_true, List.isPrefixOf_iff_prefix]
        exact hnp
      simp only [pyReplaceAux, hpf, Bool.and_false, Bool.false_eq_true, if_false]
      exact congrArg (c :: ·) (ih cs (fun x hm => hl x (by simp [hm])))

theorem pyReplaceAux_terminal_append (n : Nat) (l : List Char)
    (hl : ∀ c ∈ l, c.isDigit = true) :
    pyReplaceAux "Terminal ".data "".data (n + 1) ("Terminal ".data ++ l) = l := by
  have hcons : "Terminal ".data ++ l = 'T' :: ("erminal ".data ++ l) := rfl
  have hpre : List.isPrefixOf "Terminal ".data ('T' :: ("erminal ".data ++ l)) = true := by
    rw [List.isPrefixOf_iff_prefix, ← hcons]
    exact List.prefix_append _ _
  rw [hcons]
  simp only [pyReplaceAux, hpre, Bool.and_true,
    (by decide : ("Terminal ".data ≠ []) = True), decide_eq_true_eq, if_true]
  rw [← hcons, List.drop_left]
  simp only [List.nil_append]
  exact pyReplaceAux_all_digits n l hl

theorem pyReplace_terminal_append (d : String)
    (hd : ∀ c ∈ d.data, c.isDigit = true) :
    pyReplace ("Terminal " ++ d) "Terminal " "" = d := by
  unfold pyReplace
  have hdata : ("Terminal " ++ d).data = "Terminal ".data ++ d.data :=
    String.data_append _ _
  have hlen : ("Terminal " ++ d).data.length = (8 + d.data.length) + 1 := by
    rw [hdata, List.length_append]
    show 9 + d.data.length = (8 + d.data.length) + 1
    omega
  rw [hlen, hdata, pyReplaceAux_terminal_append _ _ hd]

theorem extract_num_terminal_append (d : String) (hne : d.data ≠ [])
    (hd : ∀ c ∈ d.data, c.isDigit = true) :
    extract_num ("Terminal " ++ d) = some ((decimalVal d.data : Nat) : Int) := by
  unfold extract_num
  have hsw : pyStartsWith ("Terminal " ++ d) "Terminal " = true := by
    unfold pyStartsWith
    rw [String.data_append, List.isPrefixOf_iff_prefix]
    exact List.prefix_append _ _
  rw [if_pos hsw, pyReplace_terminal_append d hd]
  exact pyInt?_all_digits d hne hd

/-! ## Claim theorems -/

/-- C1: start(cols, rows) returns false and leaves every session field
unchanged whenever the session is already Active or the configured project
directory does not exist or is not a directory; hence a second start
without an intervening stop returns false and leaves the state produced by
the first start intact. -/
theorem C1_start_failure_guard (s : SessionState) (env : StartEnv) :
    (s.is_active = true ∨ env.dir_exists = false ∨ env.dir_is_dir = false →
      start s env = (s, false)) ∧
    (∀ env₂ : StartEnv, (start s env).2 = true →
      start (start s env).1 env₂ = ((start s env).1, false)) := by
  constructor
  · rintro (h | h | h) <;> simp [start, h]
  · intro env₂ hsucc
    obtain ⟨ia, mfd, cpid, ot, ca⟩ := s
    obtain ⟨de, dd, fr⟩ := env
    cases ia <;> cases de <;> cases dd <;> rcases fr with _ | ⟨p, f⟩ <;>
      simp [start] at hsucc ⊢

/-- Witness for C1: a start against a missing directory fails and changes
nothing, and a second start after a successful one fails and preserves the
first start's state. -/
theorem C1_witness :
    start SessionState.inert ⟨false, true, none⟩ = (SessionState.inert, false) ∧
    (start SessionState.inert ⟨true, true, some (7, 3)⟩).2 = true ∧
    start (start SessionState.inert ⟨true, true, some (7, 3)⟩).1 ⟨true, true, some (9, 4)⟩ =
      ((start SessionState.inert ⟨true, true, some (7, 3)⟩).1, false) :=
  ⟨(C1_start_failure_guard SessionState.inert ⟨false, true, none⟩).1
      (Or.inr (Or.inl rfl)),
   by decide,
   (C1_start_failure_guard SessionState.inert ⟨true, true, some (7, 3)⟩).2
      ⟨true, true, some (9, 4)⟩ (by decide)⟩

/-- C2: after a successful start, stop() deactivates the session and
clears every OS handle field (master fd, child pid) and the output task —
and this holds even when the child process had already exited on its own
before stop() was called.  A self-exited child remains an unreaped zombie,
so os.kill(pid, 0) keeps succeeding and the read loop never deactivates
the session on its own (first conjunct: the idle iteration after the exit
leaves the state unchanged and keeps looping); stop() therefore takes its
full path, and _stop_unix clears both handle fields unconditionally,
swallowing the ProcessLookupError from the already-dead child. -/
theorem C2_stop_releases_handles (s : SessionState) (env : StartEnv)
    (h : (start s env).2 = true) :
    (read_loop_idle_step (child_exits (start s env).1) =
      (child_exits (start s env).1, true)) ∧
    ((stop (child_exits (start s env).1)).is_active = false ∧
     (stop (child_exits (start s env).1)).master_fd = none ∧
     (stop (child_exits (start s env).1)).child_pid = none ∧
     (stop (child_exits (start s env).1)).output_task = false) ∧
    ((stop (start s env).1).is_active = false ∧
     (stop (start s env).1).master_fd = none ∧
     (stop (start s env).1).child_pid = none ∧
     (stop (start s env).1).output_task = false) := by
  obtain ⟨ia, mfd, cpid, ot, ca⟩ := s
  obtain ⟨de, dd, fr⟩ := env
  cases ia <;> cases de <;> cases dd <;> rcases fr with _ | ⟨p, f⟩ <;>
    simp [start, child_exits, read_loop_idle_step, check_child_alive,
      stop, stop_unix] at h ⊢

/-- Witness for C2: a fresh session started successfully; the child exits
on its own; the read loop keeps running without deactivating the session;
stop() then clears every handle field and deactivates. -/
theorem C2_witness :
    ((start SessionState.inert ⟨true, true, some (100, 5)⟩).2 = true) ∧
    (read_loop_idle_step (child_exits
        (start SessionState.inert ⟨true, true, some (100, 5)⟩).1) =
      (child_exits (start SessionState.inert ⟨true, true, some (100, 5)⟩).1, true)) ∧
    ((stop (child_exits (start SessionState.inert ⟨true, true, some (100, 5)⟩).1)).is_active = false ∧
     (stop (child_exits (start SessionState.inert ⟨true, true, some (100, 5)⟩).1)).master_fd = none ∧
     (stop (child_exits (start SessionState.inert ⟨true, true, some (100, 5)⟩).1)).child_pid = none ∧
     (stop (child_exits (start SessionState.inert ⟨true, true, some (100, 5)⟩).1)).output_task = false) :=
  ⟨by decide,
   (C2_stop_releases_handles SessionState.inert ⟨true, true, some (100, 5)⟩ (by decide)).1,
   (C2_stop_releases_handles SessionState.inert ⟨true, true, some (100, 5)⟩ (by decide)).2.1⟩

/-- C3 as stated is false on the code: removal and the emptiness check are
two separate critical sections, so the interleaving in which both
observers remove before either checks makes both of them observe the
callback set empty (and hence both invoke stop()). -/
theorem C3_counterexample :
    [DiscEv.rem 0, DiscEv.rem 1, DiscEv.chk 0, DiscEv.chk 1] ∈
      interleavings (observerSeq 0) (observerSeq 1) ∧
    observesEmpty [DiscEv.rem 0, DiscEv.rem 1, DiscEv.chk 0, DiscEv.chk 1] 0 = true ∧
    observesEmpty [DiscEv.rem 0, DiscEv.rem 1, DiscEv.chk 0, DiscEv.chk 1] 1 = true := by
  decide

/-- C3 (amended): in every interleaving of two concurrent disconnects at
the lock's atomicity granularity, at least one observer (possibly both)
observes the callback set become empty and invokes stop(). -/
theorem C3_some_observer_sees_empty :
    ∀ l ∈ interleavings (observerSeq 0) (observerSeq 1),
      observesEmpty l 0 = true ∨ observesEmpty l 1 = true := by
  decide

/-- Witness for C3 (amended) at the serial interleaving: observer B,
checking last, observes the empty set. -/
theorem C3_witness :
    ([DiscEv.rem 0, DiscEv.chk 0, DiscEv.rem 1, DiscEv.chk 1] ∈
      interleavings (observerSeq 0) (observerSeq 1)) ∧
    (observesEmpty [DiscEv.rem 0, DiscEv.chk 0, DiscEv.rem 1, DiscEv.chk 1] 0 = true ∨
     observesEmpty [DiscEv.rem 0, DiscEv.chk 0, DiscEv.rem 1, DiscEv.chk 1] 1 = true) :=
  ⟨by decide,
   C3_some_observer_sees_empty [DiscEv.rem 0, DiscEv.chk 0, DiscEv.rem 1, DiscEv.chk 1]
     (by decide)⟩

theorem existing_nums_terminal_names :
    ∀ (ts : List TerminalInfo) (ds : List String),
      ts.map (fun t => t.name) = ds.map (fun d => "Terminal " ++ d) →
      (∀ d ∈ ds, d.data ≠ [] ∧ ∀ c ∈ d.data, c.isDigit = true) →
      existing_nums ts = ds.map (fun d => ((decimalVal d.data : Nat) : Int))
  | [], [], _, _ => rfl
  | [], _ :: _, h, _ => by simp at h
  | _ :: _, [], h, _ => by simp at h
  | t :: ts, d :: ds, h, hds => by
    simp only [List.map_cons, List.cons.injEq] at h
    obtain ⟨h1, h2⟩ := h
    obtain ⟨hne, hdig⟩ := hds d (by simp)
    have hrec := existing_nums_terminal_names ts ds h2
      (fun d' hm => hds d' (by simp [hm]))
    simp only [existing_nums, List.filterMap_cons, h1,
      extract_num_terminal_append d hne hdig, List.map_cons]
    simp only [existing_nums] at hrec
    rw [hrec]

/-- C4: create_terminal with no name supplied names the new terminal
"Terminal N" with N one greater than the highest sequence number among the
project's existing auto-generated names (not the count of terminals). -/
theorem C4_auto_generated_name (ts : List TerminalInfo) (ds : List String)
    (fresh_id now : String)
    (hnames : ts.map (fun t => t.name) = ds.map (fun d => "Terminal " ++ d))
    (hds : ∀ d ∈ ds, d.data ≠ [] ∧ ∀ c ∈ d.data, c.isDigit = true) :
    (create_terminal ts none fresh_id now).2.name =
      "Terminal " ++
        toString (pyMaxD 0 (ds.map fun d => ((decimalVal d.data : Nat) : Int)) + 1) := by
  have h := existing_nums_terminal_names ts ds hnames hds
  simp [create_terminal, next_num, h]

/-- Witness for C4: three unnamed creations on an empty project yield
Terminal 1, Terminal 2, Terminal 3; deleting Terminal 2 and creating a
fourth unnamed terminal (applying the theorem at the post-deletion state)
yields Terminal 4 — not Terminal 3 (the count-plus-one) and never
reusing Terminal 2. -/
theorem C4_witness :
    (create_terminal [] none "11111111" "t1").2.name = "Terminal 1" ∧
    (create_terminal (create_terminal [] none "11111111" "t1").1
        none "22222222" "t2").2.name = "Terminal 2" ∧
    (create_terminal (create_terminal (create_terminal [] none "11111111" "t1").1
        none "22222222" "t2").1 none "33333333" "t3").2.name = "Terminal 3" ∧
    delete_terminal (create_terminal (create_terminal
        (create_terminal [] none "11111111" "t1").1
        none "22222222" "t2").1 none "33333333" "t3").1 "22222222" =
      ([⟨"11111111", "Terminal 1", "t1"⟩, ⟨"33333333", "Terminal 3", "t3"⟩], true) ∧
    (create_terminal ([⟨"11111111", "Terminal 1", "t1"⟩,
        ⟨"33333333", "Terminal 3", "t3"⟩] : List TerminalInfo)
        none "44444444" "t4").2.name = "Terminal 4" ∧
    "Terminal 4" ≠ "Terminal " ++ toString
      (([⟨"11111111", "Terminal 1", "t1"⟩,
         ⟨"33333333", "Terminal 3", "t3"⟩] : List TerminalInfo).length + 1) ∧
    "Terminal 4" ≠ "Terminal 2" := by
  refine ⟨by decide, by decide, by decide, by decide, ?_, by decide, by decide⟩
  have h := C4_auto_generated_name
    [⟨"11111111", "Terminal 1", "t1"⟩, ⟨"33333333", "Terminal 3", "t3"⟩]
    ["1", "3"] "44444444" "t4" (by decide) (by decide)
  rw [h]
  decide

/-- C5: the POSIX shell resolver is total and returns the SHELL
environment variable whenever it names an existing executable; otherwise
the first existing path among /bin/bash then /bin/sh; otherwise /bin/sh
unconditionally.  The hypothesis which "" = false reflects that
shutil.which of an empty string never succeeds. -/
theorem C5_get_shell_characterization (env_shell : Option String)
    (which path_exists : String → Bool) (hempty : which "" = false) :
    (∀ s, env_shell = some s → which s = true →
      get_shell_posix env_shell which path_exists = s) ∧
    ((∀ s, env_shell = some s → which s = false) →
      ((path_exists "/bin/bash" = true →
          get_shell_posix env_shell which path_exists = "/bin/bash") ∧
       (path_exists "/bin/bash" = false → path_exists "/bin/sh" = true →
          get_shell_posix env_shell which path_exists = "/bin/sh") ∧
       (path_exists "/bin/bash" = false → path_exists "/bin/sh" = false →
          get_shell_posix env_shell which path_exists = "/bin/sh"))) := by
  constructor
  · rintro s rfl hs
    have hne : s ≠ "" := by
      rintro rfl
      rw [hempty] at hs
      exact absurd hs (by simp)
    simp [get_shell_posix, hne, hs]
  · intro hno
    have hfb : get_shell_posix env_shell which path_exists =
        shell_fallback path_exists := by
      cases env_shell with
      | none => rfl
      | some s => simp [get_shell_posix, hno s rfl]
    rw [hfb]
    exact ⟨fun h1 => by simp [shell_fallback, h1],
           fun h1 h2 => by simp [shell_fallback, h1, h2],
           fun h1 h2 => by simp [shell_fallback, h1, h2]⟩

/-- Witness for C5: SHELL set to an existing executable is returned. -/
theorem C5_witness :
    ((fun s => s == "/bin/zsh") "" = false) ∧
    get_shell_posix (some "/bin/zsh") (fun s => s == "/bin/zsh")
      (fun _ => false) = "/bin/zsh" :=
  ⟨by decide,
   (C5_get_shell_characterization (some "/bin/zsh") (fun s => s == "/bin/zsh")
      (fun _ => false) (by decide)).1 "/bin/zsh" rfl (by decide)⟩

theorem handle_resize_cols (ni ia : Bool) (c r : Int) :
    (handle_resize ni ia c r).cols = max 10 (min 500 c) := by
  unfold handle_resize
  cases ni <;> cases ia <;> rfl

theorem handle_resize_rows (ni ia : Bool) (c r : Int) :
    (handle_resize ni ia c r).rows = max 5 (min 200 r) := by
  unfold handle_resize
  cases ni <;> cases ia <;> rfl

/-- C6: for every integer resize request the transport clamps cols into
[10, 500] and rows into [5, 200] before passing them to start or resize;
in-range values pass through unchanged, and cols=5, rows=1000 become
10 and 200. -/
theorem C6_resize_clamped (ni ia : Bool) (cols rows : Int) :
    (10 ≤ (handle_resize ni ia cols rows).cols ∧
     (handle_resize ni ia cols rows).cols ≤ 500 ∧
     5 ≤ (handle_resize ni ia cols rows).rows ∧
     (handle_resize ni ia cols rows).rows ≤ 200) ∧
    (10 ≤ cols → cols ≤ 500 → (handle_resize ni ia cols rows).cols = cols) ∧
    (5 ≤ rows → rows ≤ 200 → (handle_resize ni ia cols rows).rows = rows) ∧
    (handle_resize ni ia 5 1000).cols = 10 ∧
    (handle_resize ni ia 5 1000).rows = 200 := by
  simp only [handle_resize_cols, handle_resize_rows]
  refine ⟨⟨?_, ?_, ?_, ?_⟩, ?_, ?_, ?_, ?_⟩ <;> omega

/-- Witness for C6: in-range cols=80, rows=24 pass through unchanged and
the out-of-range pair (5, 1000) clamps to (10, 200). -/
theorem C6_witness :
    ((10 : Int) ≤ 80 ∧ (80 : Int) ≤ 500 ∧ (5 : Int) ≤ 24 ∧ (24 : Int) ≤ 200) ∧
    (handle_resize true false 80 24).cols = 80 ∧
    (handle_resize true false 80 24).rows = 24 ∧
    (handle_resize true false 5 1000).cols = 10 ∧
    (handle_resize true false 5 1000).rows = 200 :=
  ⟨by decide,
   (C6_resize_clamped true false 80 24).2.1 (by decide) (by decide),
   (C6_resize_clamped true false 80 24).2.2.1 (by decide) (by decide),
   (C6_resize_clamped true false 80 24).2.2.2.1,
   (C6_resize_clamped true false 80 24).2.2.2.2⟩

/-- C7: write on an Inert session is a no-op that leaves the session
unchanged, and write never lets an exception escape to its caller in any
state — the result is always a normal return carrying the unchanged
session. -/
theorem C7_write_no_raise_no_change (s : SessionState) (data : Bytes)
    (io_ok : Bool) :
    (s.is_active = false →
      write s data io_ok = .ok (s, .skipped_inactive)) ∧
    (∃ r, write s data io_ok = Except.ok (s, r)) := by
  constructor
  · intro h
    simp [write, h]
  · cases h : s.is_active <;> rcases hfd : s.master_fd with _ | fd <;>
      cases io_ok <;> simp [write, os_write, h, hfd]

/-- Witness for C7: an inactive session ignores the write, and an active
session with a failing descriptor still returns normally, unchanged. -/
theorem C7_witness :
    (SessionState.inert.is_active = false) ∧
    write SessionState.inert [1, 2] false =
      .ok (SessionState.inert, .skipped_inactive) ∧
    (∃ r, write ⟨true, some 5, some 100, true, true⟩ [1] false =
      Except.ok ((⟨true, some 5, some 100, true, true⟩ : SessionState), r)) :=
  ⟨rfl,
   (C7_write_no_raise_no_change SessionState.inert [1, 2] false).1 rfl,
   (C7_write_no_raise_no_change ⟨true, some 5, some 100, true, true⟩ [1] false).2⟩

/-- C8: stop is idempotent — on an already-Inert session it is a no-op
returning the state unchanged, and stop composed with stop equals a single
stop on every state. -/
theorem C8_stop_idempotent (s : SessionState) :
    (s.is_active = false → stop s = s) ∧ stop (stop s) = stop s := by
  constructor
  · intro h
    simp [stop, h]
  · cases h : s.is_active <;> simp [stop, stop_unix, h]

/-- Witness for C8 at the freshly constructed inert session. -/
theorem C8_witness :
    (SessionState.inert.is_active = false) ∧
    stop SessionState.inert = SessionState.inert ∧
    stop (stop SessionState.inert) = stop SessionState.inert :=
  ⟨rfl, (C8_stop_idempotent SessionState.inert).1 rfl,
   (C8_stop_idempotent SessionState.inert).2⟩

/-- C9: a broadcast delivers the data to every callback in the snapshot,
in order, regardless of which callbacks raise; exceptions from callbacks
are caught inside the broadcast and never escape into the read loop. -/
theorem C9_broadcast_delivers_all (cbs : List Callback) (data : Bytes) :
    broadcast_output cbs data = .ok (cbs.map (fun cb => (cb.id, data))) := by
  induction cbs with
  | nil => rfl
  | cons cb rest ih =>
    cases h : cb.raises <;> simp [broadcast_output, invoke, h, ih]

theorem hexLower_isAlphanum (c : Char) (h : isHexLower c = true) :
    (c.isAlpha || c.isDigit) = true := by
  unfold isHexLower at h
  rcases Bool.or_eq_true _ _ |>.mp h with hd | hr
  · simp [hd]
  · simp only [Bool.and_eq_true, decide_eq_true_eq] at hr
    have hl : c.isLower = true := by
      simp only [Char.isLower, Bool.and_eq_true, decide_eq_true_eq, ge_iff_le]
      exact ⟨hr.1, show c.toNat ≤ 122 by omega⟩
    simp [Char.isAlpha, hl]

theorem new_terminal_id_data (h : List Char) :
    (new_terminal_id h).data =
      (h.take 8 ++ '-' :: ((h.drop 8).take 4 ++ '-' :: ((h.drop 12).take 4 ++
        '-' :: ((h.drop 16).take 4 ++ '-' :: h.drop 20)))).take 8 := rfl

/-- C10: an id allocated by create_terminal — the first 8 characters of a
canonical UUID4 string — is an 8-character string of lowercase hex digits
and always passes the router's validate_terminal_id check. -/
theorem C10_new_id_valid (h : List Char) (hlen : h.length = 32)
    (hhex : ∀ c ∈ h, isHexLower c = true) :
    (new_terminal_id h).data.length = 8 ∧
    (∀ c ∈ (new_terminal_id h).data, isHexLower c = true) ∧
    validate_terminal_id (new_terminal_id h) = true := by
  have htake : (h.take 8).length = 8 := by
    rw [List.length_take, hlen]
    decide
  have hdata : (new_terminal_id h).data = h.take 8 := by
    rw [new_terminal_id_data, List.take_left' htake]
  refine ⟨?_, ?_, ?_⟩
  · rw [hdata, htake]
  · intro c hm
    rw [hdata] at hm
    exact hhex c (List.take_subset _ _ hm)
  · have hall : ((h.take 8).all fun c => c.isAlpha || c.isDigit) = true :=
      List.all_eq_true.mpr (fun c hm =>
        hexLower_isAlphanum c (hhex c (List.take_subset _ _ hm)))
    unfold validate_terminal_id
    rw [hdata, htake, hall]
    decide

/-- Witness for C10 with a concrete 32-hex-digit UUID body. -/
theorem C10_witness :
    ("0123456789abcdef0123456789abcdef".data.length = 32) ∧
    (∀ c ∈ "0123456789abcdef0123456789abcdef".data, isHexLower c = true) ∧
    validate_terminal_id
      (new_terminal_id "0123456789abcdef0123456789abcdef".data) = true :=
  ⟨by decide, by decide,
   (C10_new_id_valid "0123456789abcdef0123456789abcdef".data
      (by decide) (by decide)).2.2⟩
